import Mathlib

/-!
Shallow embedding of the Sports-websockets Express/Drizzle backend
(`src/index.js` route handlers and `src/db/schema.js` table declarations),
together with theorems settling the specification claims.

Modelling conventions:
* `timestamp` columns produced by `new Date(string)` are modelled by the
  `Timestamp` type (the parsed string itself, `newDate` being the tagging);
  no claim depends on date-parse arithmetic.
* `defaultNow()` creation timestamps come from a monotone counter `clock`
  held in the database state, bumped at every insert, so successive inserts
  get strictly increasing `createdAt` values.
* `serial` primary keys come from the counters `nextMatchId` and
  `nextCommentaryId` in the database state.
* the `jsonb` metadata blob is modelled by its serialized text
  (`Option String`, `none` being SQL NULL); its shape is unconstrained by
  the code and no claim inspects it.
* JavaScript truthiness of request fields (`if (!sport) ...`,
  `minute || null`) is modelled by `truthyStr` / `truthyInt` /
  `jsOrNullStr` / `jsOrNullInt`: an absent field is `none`, the empty
  string and the integer 0 are falsy.
* drizzle-orm semantics that the handlers rely on are part of the model:
  `query.where(a).where(b)` stores `b` over `a` (the second call overwrites
  `config.where`, it does not conjoin), and `update(...).set({})` on an
  empty update object throws `Error('No values to set')` before touching
  the database (`mapUpdateSet`).
* the `commentary.match_id` foreign key with `onDelete: 'cascade'` declared
  in `schema.js` is enforced at the storage layer: an insert whose matchId
  references no match row fails with a constraint-violation error, and
  deleting a match deletes its commentary rows.
-/

namespace SportsApi

/-- The `match_status` pg enum from `schema.js`: scheduled | live | finished. -/
inductive MatchStatus where
  | scheduled
  | live
  | finished
deriving DecidableEq, Repr

/-- The string form of a status value, as stored/filtered by the database. -/
def MatchStatus.toStr : MatchStatus → String
  | .scheduled => "scheduled"
  | .live => "live"
  | .finished => "finished"

/-- Timestamps: the value of `new Date(s)`, modelled by the string itself. -/
abbrev Timestamp := String

/-- `new Date(s)` as used by the handlers when storing startTime/endTime. -/
def newDate (s : String) : Timestamp := s

/-- A row of the `matches` table (`matchesTable` in `schema.js`). -/
structure MatchRow where
  id : Int
  sport : String
  homeTeam : String
  awayTeam : String
  status : MatchStatus
  startTime : Timestamp
  endTime : Option Timestamp
  homeScore : Int
  awayScore : Int
  createdAt : Nat
deriving DecidableEq, Repr

/-- A row of the `commentary` table (`commentaryTable` in `schema.js`). -/
structure CommentaryRow where
  id : Int
  matchId : Int
  minute : Option Int
  sequence : Int
  period : Option String
  eventType : String
  actor : String
  team : String
  message : String
  metadata : Option String
  tags : List String
  createdAt : Nat
deriving DecidableEq, Repr

/-- The persistent database state: the two tables plus the system-assigned
serial counters and the `defaultNow()` clock. -/
structure DB where
  matchesTable : List MatchRow
  commentaryTable : List CommentaryRow
  nextMatchId : Int
  nextCommentaryId : Int
  clock : Nat
deriving DecidableEq, Repr

/-- A handler response: `ok code data` is `{success: true, data}` with the
given HTTP status, `err code msg` is `{success: false, error: msg}`. -/
inductive HResp (α : Type) where
  | ok (code : Nat) (data : α)
  | err (code : Nat) (msg : String)
deriving DecidableEq, Repr

/-- JavaScript truthiness of an optional string field: absent (`undefined`)
and the empty string are falsy. -/
def truthyStr : Option String → Bool
  | none => false
  | some s => !(s == "")

/-- JavaScript truthiness of an optional integer field: absent and 0 are
falsy. -/
def truthyInt : Option Int → Bool
  | none => false
  | some n => !(n == 0)

/-- `x || null` for an optional string field: falsy values become NULL. -/
def jsOrNullStr : Option String → Option String
  | none => none
  | some s => if s == "" then none else some s

/-- `x || null` for an optional integer field: falsy values (0) become
NULL. -/
def jsOrNullInt : Option Int → Option Int
  | none => none
  | some n => if n == 0 then none else some n

/-- Request body of `POST /matches`. Each field is `none` when absent from
the JSON body. The handler destructures only the four required fields; the
`status` field is carried here to express that the handler ignores it. -/
structure MatchBody where
  sport : Option String := none
  homeTeam : Option String := none
  awayTeam : Option String := none
  startTime : Option String := none
  status : Option String := none
deriving DecidableEq, Repr

/-- Request body of `PUT /matches/:id`. `none` models an `undefined` field.
The status value is carried as the enum type: enum-invalid strings are
rejected by the storage layer's `match_status` constraint, which no claim
exercises. -/
structure MatchUpdateBody where
  status : Option MatchStatus := none
  homeScore : Option Int := none
  awayScore : Option Int := none
  endTime : Option String := none
deriving DecidableEq, Repr

/-- Request body of `POST /matches/:matchId/commentary`. -/
structure CommentaryBody where
  minute : Option Int := none
  sequence : Option Int := none
  period : Option String := none
  eventType : Option String := none
  actor : Option String := none
  team : Option String := none
  message : Option String := none
  metadata : Option String := none
  tags : Option (List String) := none
deriving DecidableEq, Repr

/-- Request body of `PUT /commentary/:id`. -/
structure CommentaryUpdateBody where
  message : Option String := none
  metadata : Option String := none
deriving DecidableEq, Repr

/-- `GET /matches` — `app.get('/matches')`.
The handler does `if (status) query = query.where(eq(status, ...))` and then
`if (sport) query = query.where(eq(sport, ...))`. drizzle's `.where` stores
the condition into `config.where`, so when both query params are truthy the
second call overwrites the first and only the sport filter reaches SQL. -/
def getMatches (db : DB) (status sport : Option String) : HResp (List MatchRow) :=
  let rows :=
    if truthyStr sport then
      db.matchesTable.filter (fun m => m.sport == sport.getD "")
    else if truthyStr status then
      db.matchesTable.filter (fun m => m.status.toStr == status.getD "")
    else
      db.matchesTable
  .ok 200 rows

/-- `GET /matches/:id` — selects rows with the parsed id; empty result is
404 `Match not found`, otherwise 200 with the first row. -/
def getMatchById (db : DB) (id : Int) : HResp MatchRow :=
  match db.matchesTable.filter (fun m => m.id == id) with
  | [] => .err 404 "Match not found"
  | m :: _ => .ok 200 m

/-- The row inserted by `POST /matches`: the handler supplies the four
required values plus `status: 'scheduled'`; the schema supplies the serial
id, the score defaults 0 and the `defaultNow()` createdAt; endTime stays
NULL. The body's `status` field is never read. -/
def createdMatchRow (db : DB) (b : MatchBody) : MatchRow :=
  { id := db.nextMatchId
    sport := b.sport.getD ""
    homeTeam := b.homeTeam.getD ""
    awayTeam := b.awayTeam.getD ""
    status := .scheduled
    startTime := newDate (b.startTime.getD "")
    endTime := none
    homeScore := 0
    awayScore := 0
    createdAt := db.clock }

/-- `POST /matches` — requires sport, homeTeam, awayTeam, startTime all
truthy, else 400; otherwise inserts `createdMatchRow` and returns 201 with
it. -/
def postMatch (db : DB) (b : MatchBody) : HResp MatchRow × DB :=
  if !(truthyStr b.sport) || !(truthyStr b.homeTeam)
      || !(truthyStr b.awayTeam) || !(truthyStr b.startTime) then
    (.err 400 "Missing required fields: sport, homeTeam, awayTeam, startTime", db)
  else
    (.ok 201 (createdMatchRow db b),
      { db with
          matchesTable := db.matchesTable ++ [createdMatchRow db b]
          nextMatchId := db.nextMatchId + 1
          clock := db.clock + 1 })

/-- The update object of `PUT /matches/:id` applied to one row: exactly the
defined body fields are assigned, everything else keeps its value. -/
def applyMatchUpdate (b : MatchUpdateBody) (m : MatchRow) : MatchRow :=
  { m with
      status := b.status.getD m.status
      homeScore := b.homeScore.getD m.homeScore
      awayScore := b.awayScore.getD m.awayScore
      endTime := match b.endTime with
        | some s => some (newDate s)
        | none => m.endTime }

/-- Whether the `updateData` object built by `PUT /matches/:id` is empty
(every updatable field was `undefined`). -/
def matchUpdateEmpty (b : MatchUpdateBody) : Bool :=
  b.status.isNone && b.homeScore.isNone && b.awayScore.isNone && b.endTime.isNone

/-- `PUT /matches/:id` — builds `updateData` from the defined fields among
status, homeScore, awayScore, endTime. An empty `updateData` makes drizzle's
`mapUpdateSet` throw `No values to set`, caught as a 400, before any row is
touched. Otherwise the update hits every row with the parsed id; zero
returned rows is 404 `Match not found`, else 200 with the updated row. -/
def putMatch (db : DB) (id : Int) (b : MatchUpdateBody) : HResp MatchRow × DB :=
  if matchUpdateEmpty b then
    (.err 400 "No values to set", db)
  else
    match (db.matchesTable.filter (fun m => m.id == id)).map (applyMatchUpdate b) with
    | [] => (.err 404 "Match not found", db)
    | r :: _ =>
      (.ok 200 r,
        { db with
            matchesTable := db.matchesTable.map (fun m =>
              if m.id == id then applyMatchUpdate b m else m) })

/-- `DELETE /matches/:id` — deletes rows with the parsed id unconditionally
and always reports success; the `onDelete: 'cascade'` foreign key makes the
storage layer delete every commentary row of the deleted match. -/
def deleteMatch (db : DB) (id : Int) : HResp String × DB :=
  (.ok 200 "Match deleted successfully",
    { db with
        matchesTable := db.matchesTable.filter (fun m => !(m.id == id))
        commentaryTable := db.commentaryTable.filter (fun c => !(c.matchId == id)) })

/-- Descending creation-time order on commentary rows (`desc(createdAt)`). -/
def laterFirst (a b : CommentaryRow) : Prop := b.createdAt ≤ a.createdAt

instance : DecidableRel laterFirst := fun a b => by
  unfold laterFirst; infer_instance

instance : IsTotal CommentaryRow laterFirst :=
  ⟨fun a b => (Nat.le_total b.createdAt a.createdAt).imp id id⟩

instance : IsTrans CommentaryRow laterFirst :=
  ⟨fun _ _ _ hab hbc => Nat.le_trans hbc hab⟩

/-- `GET /matches/:matchId/commentary` — selects the rows with the parsed
matchId ordered by `createdAt` descending; no existence check on the match,
always a 200. The database's ORDER BY is modelled by a sort. -/
def getMatchCommentary (db : DB) (mid : Int) : HResp (List CommentaryRow) :=
  .ok 200 (List.insertionSort laterFirst
    (db.commentaryTable.filter (fun c => c.matchId == mid)))

/-- The row inserted by `POST /matches/:matchId/commentary`: the handler
stores `minute || null`, `period || null`, `metadata || null`, `tags || []`
and the parsed matchId; the schema supplies the serial id and the
`defaultNow()` createdAt. -/
def insertedCommentaryRow (db : DB) (mid : Int) (b : CommentaryBody) : CommentaryRow :=
  { id := db.nextCommentaryId
    matchId := mid
    minute := jsOrNullInt b.minute
    sequence := b.sequence.getD 0
    period := jsOrNullStr b.period
    eventType := b.eventType.getD ""
    actor := b.actor.getD ""
    team := b.team.getD ""
    message := b.message.getD ""
    metadata := jsOrNullStr b.metadata
    tags := b.tags.getD []
    createdAt := db.clock }

/-- `POST /matches/:matchId/commentary` — requires sequence, eventType,
actor, team, message all truthy, else the missing-fields 400; the insert
then hits the storage layer, whose foreign key rejects a matchId that
references no match row (generic 400). Otherwise `insertedCommentaryRow`
is inserted and returned with 201. -/
def postCommentary (db : DB) (mid : Int) (b : CommentaryBody) : HResp CommentaryRow × DB :=
  if !(truthyInt b.sequence) || !(truthyStr b.eventType) || !(truthyStr b.actor)
      || !(truthyStr b.team) || !(truthyStr b.message) then
    (.err 400 "Missing required fields: sequence, eventType, actor, team, message", db)
  else if db.matchesTable.all (fun m => !(m.id == mid)) then
    (.err 400 "insert or update on table \x22commentary\x22 violates foreign key constraint", db)
  else
    (.ok 201 (insertedCommentaryRow db mid b),
      { db with
          commentaryTable := db.commentaryTable ++ [insertedCommentaryRow db mid b]
          nextCommentaryId := db.nextCommentaryId + 1
          clock := db.clock + 1 })

/-- The update object of `PUT /commentary/:id` applied to one row. -/
def applyCommentaryUpdate (b : CommentaryUpdateBody) (c : CommentaryRow) : CommentaryRow :=
  { c with
      message := b.message.getD c.message
      metadata := match b.metadata with
        | some s => some s
        | none => c.metadata }

/-- Whether the `updateData` object built by `PUT /commentary/:id` is
empty. -/
def commentaryUpdateEmpty (b : CommentaryUpdateBody) : Bool :=
  b.message.isNone && b.metadata.isNone

/-- `PUT /commentary/:id` — same shape as `PUT /matches/:id` over the
fields message and metadata; 404 `Commentary not found` when zero rows
match, 400 `No values to set` on an empty update object. -/
def putCommentary (db : DB) (id : Int) (b : CommentaryUpdateBody) : HResp CommentaryRow × DB :=
  if commentaryUpdateEmpty b then
    (.err 400 "No values to set", db)
  else
    match (db.commentaryTable.filter (fun c => c.id == id)).map (applyCommentaryUpdate b) with
    | [] => (.err 404 "Commentary not found", db)
    | r :: _ =>
      (.ok 200 r,
        { db with
            commentaryTable := db.commentaryTable.map (fun c =>
              if c.id == id then applyCommentaryUpdate b c else c) })

/-- `DELETE /commentary/:id` — deletes rows with the parsed id and always
reports success. -/
def deleteCommentary (db : DB) (id : Int) : HResp String × DB :=
  (.ok 200 "Commentary deleted successfully",
    { db with commentaryTable := db.commentaryTable.filter (fun c => !(c.id == id)) })

/-- An update body with every field `undefined` (an empty JSON object). -/
def emptyMatchUpdate : MatchUpdateBody := {}

/-- An update body with every field `undefined` (an empty JSON object). -/
def emptyCommentaryUpdate : CommentaryUpdateBody := {}

/-! Concrete fixtures used by counterexamples and witnesses. -/

/-- The empty database. -/
def dbEmpty : DB :=
  { matchesTable := []
    commentaryTable := []
    nextMatchId := 1
    nextCommentaryId := 1
    clock := 0 }

/-- A scheduled football match with id 1. -/
def matchFixture : MatchRow :=
  { id := 1
    sport := "football"
    homeTeam := "A"
    awayTeam := "B"
    status := .scheduled
    startTime := "2026-01-01T10:00:00Z"
    endTime := none
    homeScore := 0
    awayScore := 0
    createdAt := 0 }

/-- A database holding exactly `matchFixture`. -/
def dbOneMatch : DB :=
  { matchesTable := [matchFixture]
    commentaryTable := []
    nextMatchId := 2
    nextCommentaryId := 1
    clock := 1 }

/-- A finished football match with id 1. -/
def finishedFootball : MatchRow :=
  { matchFixture with status := .finished }

/-- A database holding only a finished football match. -/
def dbFinishedFootball : DB :=
  { dbOneMatch with matchesTable := [finishedFootball] }

/-- A commentary row on match 1, parameterised by id/sequence/createdAt. -/
def commentFixture (i : Int) (t : Nat) : CommentaryRow :=
  { id := i
    matchId := 1
    minute := none
    sequence := i
    period := none
    eventType := "goal"
    actor := "Alice"
    team := "Reds"
    message := "Goal!"
    metadata := none
    tags := []
    createdAt := t }

/-- A database with match 1 and three commentary rows created in the order
id 1, id 2, id 3 (createdAt 1, 2, 3). -/
def dbThreeComments : DB :=
  { matchesTable := [matchFixture]
    commentaryTable := [commentFixture 1 1, commentFixture 2 2, commentFixture 3 3]
    nextMatchId := 2
    nextCommentaryId := 4
    clock := 4 }

/-! Theorems settling the claims. -/

/-- C9: every `DELETE /matches/:id` and `DELETE /commentary/:id` request
with a parseable id returns a 200 success message, for every database
state — in particular also when no row with that id exists; neither
handler performs an existence check or returns 404. -/
theorem deletes_always_report_success (db : DB) (id : Int) :
    (deleteMatch db id).1 = HResp.ok 200 "Match deleted successfully" ∧
    (deleteCommentary db id).1 = HResp.ok 200 "Commentary deleted successfully" :=
  ⟨rfl, rfl⟩

/-- C10: a `PUT /matches/:id` or `PUT /commentary/:id` request whose body
defines none of the handler's updatable fields is answered 400 (drizzle's
`mapUpdateSet` throws `No values to set` on the empty update object) rather
than 200 or 404, and the database state is unchanged. -/
theorem put_empty_body_rejected_400 (db : DB) (mid cid : Int) :
    putMatch db mid emptyMatchUpdate = (HResp.err 400 "No values to set", db) ∧
    putCommentary db cid emptyCommentaryUpdate = (HResp.err 400 "No values to set", db) :=
  ⟨rfl, rfl⟩

/-- C1 (code behaviour at the failing input): with the database holding
exactly one match, a finished football match, the request
`GET /matches?status=live&sport=football` returns that match — the status
predicate is dropped because the second `.where` call overwrites the
first — although its status is not `live`, so the returned list is not
the set of rows satisfying both filters. -/
theorem getMatches_both_filters_drops_status :
    finishedFootball.status ≠ MatchStatus.live ∧
    getMatches dbFinishedFootball (some "live") (some "football") =
      HResp.ok 200 [finishedFootball] := by
  exact ⟨by decide, by decide⟩

/-- C8: a `POST /matches` request in which any of sport, homeTeam,
awayTeam, startTime is missing or falsy returns 400 with the validation
error and leaves the database unchanged — no row is persisted. -/
theorem postMatch_missing_required_field_400 (db : DB) (b : MatchBody)
    (h : (truthyStr b.sport && truthyStr b.homeTeam
          && truthyStr b.awayTeam && truthyStr b.startTime) = false) :
    postMatch db b =
      (HResp.err 400 "Missing required fields: sport, homeTeam, awayTeam, startTime", db) := by
  unfold postMatch
  cases hs : truthyStr b.sport <;> cases hh : truthyStr b.homeTeam <;>
    cases ha : truthyStr b.awayTeam <;> cases ht : truthyStr b.startTime <;>
    simp_all

/-- A `POST /matches` body in which `sport` is absent. -/
def bodyNoSport : MatchBody :=
  { homeTeam := some "A"
    awayTeam := some "B"
    startTime := some "2026-01-01T10:00:00Z" }

/-- C8 witness: a body missing `sport` is rejected and persists nothing. -/
theorem postMatch_missing_required_field_400_witness :
    (truthyStr bodyNoSport.sport && truthyStr bodyNoSport.homeTeam
      && truthyStr bodyNoSport.awayTeam && truthyStr bodyNoSport.startTime) = false ∧
    postMatch dbEmpty bodyNoSport =
      (HResp.err 400 "Missing required fields: sport, homeTeam, awayTeam, startTime", dbEmpty) :=
  ⟨by decide, postMatch_missing_required_field_400 dbEmpty bodyNoSport (by decide)⟩

/-- C2: a `POST /matches` request supplying sport, homeTeam, awayTeam and
startTime (truthy, per the handler's falsy-check) returns 201 with the
newly created row, whose status is `scheduled` no matter what `status` the
body carried (the handler never reads it), whose id is the system-assigned
serial, and whose scores default to 0; the row is appended to the table. -/
theorem postMatch_creates_scheduled_row (db : DB) (b : MatchBody)
    (hs : truthyStr b.sport = true) (hh : truthyStr b.homeTeam = true)
    (ha : truthyStr b.awayTeam = true) (ht : truthyStr b.startTime = true) :
    (postMatch db b).1 = HResp.ok 201 (createdMatchRow db b) ∧
    (createdMatchRow db b).status = MatchStatus.scheduled ∧
    (createdMatchRow db b).homeScore = 0 ∧
    (createdMatchRow db b).awayScore = 0 ∧
    (createdMatchRow db b).id = db.nextMatchId ∧
    (postMatch db b).2.matchesTable = db.matchesTable ++ [createdMatchRow db b] := by
  unfold postMatch
  simp [hs, hh, ha, ht, createdMatchRow]

/-- A `POST /matches` body with the four required fields and also a
`status: "live"` entry, which the handler must ignore. -/
def bodyWithLiveStatus : MatchBody :=
  { sport := some "football"
    homeTeam := some "A"
    awayTeam := some "B"
    startTime := some "2026-01-01T10:00:00Z"
    status := some "live" }

/-- C2 witness: a body that supplies all four required fields and also
`status: "live"` still yields a 201 row with status `scheduled`. -/
theorem postMatch_creates_scheduled_row_witness :
    truthyStr bodyWithLiveStatus.sport = true ∧
    bodyWithLiveStatus.status = some "live" ∧
    (postMatch dbEmpty bodyWithLiveStatus).1 =
      HResp.ok 201 (createdMatchRow dbEmpty bodyWithLiveStatus) ∧
    (createdMatchRow dbEmpty bodyWithLiveStatus).status = MatchStatus.scheduled :=
  ⟨by decide, by decide,
    (postMatch_creates_scheduled_row dbEmpty bodyWithLiveStatus
      (by decide) (by decide) (by decide) (by decide)).1,
    (postMatch_creates_scheduled_row dbEmpty bodyWithLiveStatus
      (by decide) (by decide) (by decide) (by decide)).2.1⟩

/-- C4: deleting a match removes it and, through the `onDelete: 'cascade'`
foreign key, every commentary row referencing it: afterwards no match row
carries the deleted id, listing that id's commentary returns an empty list
with success, and matches and commentary of other ids are untouched. -/
theorem deleteMatch_cascades_to_commentary (db : DB) (id : Int) :
    (∀ m ∈ ((deleteMatch db id).2).matchesTable, m.id ≠ id) ∧
    (∀ m ∈ db.matchesTable, m.id ≠ id → m ∈ ((deleteMatch db id).2).matchesTable) ∧
    (∀ c ∈ ((deleteMatch db id).2).commentaryTable, c ∈ db.commentaryTable ∧ c.matchId ≠ id) ∧
    (∀ c ∈ db.commentaryTable, c.matchId ≠ id → c ∈ ((deleteMatch db id).2).commentaryTable) ∧
    getMatchCommentary ((deleteMatch db id).2) id = HResp.ok 200 [] := by
  refine ⟨?_, ?_, ?_, ?_, ?_⟩
  · intro m hm
    have h := (List.mem_filter.mp hm).2
    simpa using h
  · intro m hm h
    exact List.mem_filter.mpr ⟨hm, by simpa using h⟩
  · intro c hc
    have h := List.mem_filter.mp hc
    exact ⟨h.1, by simpa using h.2⟩
  · intro c hc h
    exact List.mem_filter.mpr ⟨hc, by simpa using h⟩
  · unfold getMatchCommentary deleteMatch
    have hnil : ((db.commentaryTable.filter (fun c => !(c.matchId == id))).filter
        (fun c => c.matchId == id)) = [] := by
      rw [List.filter_eq_nil_iff]
      intro c hc
      have h := (List.mem_filter.mp hc).2
      simpa using h
    simp only [hnil]
    rfl

/-- The table produced by the drizzle `UPDATE matches SET ... WHERE id`
statement of `PUT /matches/:id`: every row carrying the parsed id receives
the update object, every other row is untouched. The handler's two error
paths (empty update object, no matching row) leave the table unchanged,
which agrees with this map (the empty update object acts as the identity
and a missing id makes the map the identity). -/
theorem putMatch_matchesTable (db : DB) (id : Int) (b : MatchUpdateBody) :
    ((putMatch db id b).2).matchesTable =
      db.matchesTable.map (fun m => if m.id == id then applyMatchUpdate b m else m) := by
  unfold putMatch
  by_cases hemp : matchUpdateEmpty b = true
  · simp only [matchUpdateEmpty, Bool.and_eq_true, Option.isNone_iff_eq_none] at hemp
    obtain ⟨⟨⟨h1, h2⟩, h3⟩, h4⟩ := hemp
    have happ : ∀ m : MatchRow, applyMatchUpdate b m = m := by
      intro m
      cases m
      simp [applyMatchUpdate, h1, h2, h3, h4]
    have hid : ∀ m ∈ db.matchesTable,
        (if m.id == id then applyMatchUpdate b m else m) = m := by
      intro m _
      rw [happ m]
      exact ite_self m
    have hcond : matchUpdateEmpty b = true := by
      simp [matchUpdateEmpty, h1, h2, h3, h4]
    have hmap : db.matchesTable.map
        (fun m => if m.id == id then applyMatchUpdate b m else m) = db.matchesTable := by
      rw [List.map_congr_left hid]
      exact List.map_id db.matchesTable
    rw [if_pos hcond, hmap]
  · rw [if_neg hemp]
    cases hf : (db.matchesTable.filter (fun m => m.id == id)).map (applyMatchUpdate b) with
    | nil =>
      have hfil : db.matchesTable.filter (fun m => m.id == id) = [] :=
        List.map_eq_nil_iff.mp hf
      have hno := List.filter_eq_nil_iff.mp hfil
      have hid : ∀ m ∈ db.matchesTable,
          (if m.id == id then applyMatchUpdate b m else m) = m := by
        intro m hm
        rw [if_neg]
        intro hb
        exact hno m hm (by simpa using hb)
      have hmap : db.matchesTable.map
          (fun m => if m.id == id then applyMatchUpdate b m else m) = db.matchesTable := by
        rw [List.map_congr_left hid]
        exact List.map_id db.matchesTable
      rw [hmap]
    | cons r rs =>
      rfl

/-- C5: a `PUT /matches/:id` request changes, on every row carrying the
parsed id, exactly the fields among status, homeScore, awayScore, endTime
that the body defines (each updated field takes the supplied value, each
undefined field keeps the stored value), and never touches id, sport,
homeTeam, awayTeam, startTime or createdAt; rows with other ids are
unchanged. In particular a body of only `{status: "live"}` changes status
alone. -/
theorem putMatch_touches_only_present_fields (db : DB) (id : Int)
    (b : MatchUpdateBody) (m : MatchRow) (hm : m ∈ db.matchesTable) :
    ((if m.id == id then applyMatchUpdate b m else m) ∈ ((putMatch db id b).2).matchesTable) ∧
    (applyMatchUpdate b m).id = m.id ∧
    (applyMatchUpdate b m).sport = m.sport ∧
    (applyMatchUpdate b m).homeTeam = m.homeTeam ∧
    (applyMatchUpdate b m).awayTeam = m.awayTeam ∧
    (applyMatchUpdate b m).startTime = m.startTime ∧
    (applyMatchUpdate b m).createdAt = m.createdAt ∧
    (applyMatchUpdate b m).status = b.status.getD m.status ∧
    (applyMatchUpdate b m).homeScore = b.homeScore.getD m.homeScore ∧
    (applyMatchUpdate b m).awayScore = b.awayScore.getD m.awayScore ∧
    (b.endTime = none → (applyMatchUpdate b m).endTime = m.endTime) ∧
    (∀ s, b.endTime = some s → (applyMatchUpdate b m).endTime = some (newDate s)) ∧
    applyMatchUpdate { status := some MatchStatus.live } m
      = { m with status := MatchStatus.live } := by
  refine ⟨?_, rfl, rfl, rfl, rfl, rfl, rfl, rfl, rfl, rfl, ?_, ?_, rfl⟩
  · rw [putMatch_matchesTable]
    exact List.mem_map_of_mem _ hm
  · intro h
    simp [applyMatchUpdate, h]
  · intro s h
    simp [applyMatchUpdate, h]

/-- The update body holding only `{status: "live"}`. -/
def bodyLiveOnly : MatchUpdateBody := { status := some MatchStatus.live }

/-- C5 witness: updating the fixture match with `{status: "live"}` yields
a stored row equal to the fixture with only its status changed; in
particular its endTime, absent from the body, is untouched. -/
theorem putMatch_touches_only_present_fields_witness :
    matchFixture ∈ dbOneMatch.matchesTable ∧
    ((if matchFixture.id == (1 : Int) then applyMatchUpdate bodyLiveOnly matchFixture
        else matchFixture) ∈ ((putMatch dbOneMatch 1 bodyLiveOnly).2).matchesTable) ∧
    (applyMatchUpdate bodyLiveOnly matchFixture).endTime = matchFixture.endTime ∧
    applyMatchUpdate bodyLiveOnly matchFixture
      = { matchFixture with status := MatchStatus.live } := by
  have h := putMatch_touches_only_present_fields dbOneMatch 1 bodyLiveOnly matchFixture
    (by decide)
  exact ⟨by decide, h.1, h.2.2.2.2.2.2.2.2.2.2.1 rfl, by decide⟩

/-- A `POST .../commentary` body whose five required fields are all present
but whose sequence is the integer 0, which is falsy in JavaScript. -/
def bodySequenceZero : CommentaryBody :=
  { sequence := some 0
    eventType := some "goal"
    actor := some "Alice"
    team := some "Reds"
    message := some "Goal!" }

/-- C3 counterexample: a commentary body with sequence, eventType, actor,
team and message all present is nevertheless answered with the
missing-fields validation error, because the present value `sequence: 0`
fails the handler's falsy check `!sequence`; nothing is inserted. -/
theorem postCommentary_present_zero_sequence_rejected :
    bodySequenceZero.sequence.isSome = true ∧
    bodySequenceZero.eventType.isSome = true ∧
    bodySequenceZero.actor.isSome = true ∧
    bodySequenceZero.team.isSome = true ∧
    bodySequenceZero.message.isSome = true ∧
    postCommentary dbOneMatch 1 bodySequenceZero =
      (HResp.err 400 "Missing required fields: sequence, eventType, actor, team, message",
        dbOneMatch) :=
  ⟨rfl, rfl, rfl, rfl, rfl, rfl⟩

/-- C3 (amended): a `POST /matches/:matchId/commentary` request whose
sequence, eventType, actor, team and message are present and truthy
(sequence nonzero, the strings nonempty), and whose matchId references an
existing match (else the storage layer's foreign key rejects the insert),
does not get the missing-fields error: the row is inserted and returned,
with minute and period defaulting to NULL when absent, metadata defaulting
to NULL, and tags defaulting to the empty array. -/
theorem postCommentary_inserts_with_defaults (db : DB) (mid : Int) (b : CommentaryBody)
    (hseq : truthyInt b.sequence = true) (hev : truthyStr b.eventType = true)
    (hac : truthyStr b.actor = true) (htm : truthyStr b.team = true)
    (hmsg : truthyStr b.message = true)
    (hex : ∃ m ∈ db.matchesTable, m.id = mid) :
    postCommentary db mid b =
      (HResp.ok 201 (insertedCommentaryRow db mid b),
        { db with
            commentaryTable := db.commentaryTable ++ [insertedCommentaryRow db mid b]
            nextCommentaryId := db.nextCommentaryId + 1
            clock := db.clock + 1 }) ∧
    (b.minute = none → (insertedCommentaryRow db mid b).minute = none) ∧
    (b.period = none → (insertedCommentaryRow db mid b).period = none) ∧
    (b.metadata = none → (insertedCommentaryRow db mid b).metadata = none) ∧
    (b.tags = none → (insertedCommentaryRow db mid b).tags = []) := by
  have hall : (db.matchesTable.all (fun m => !(m.id == mid))) = false := by
    obtain ⟨m, hm, hid⟩ := hex
    apply Bool.eq_false_iff.mpr
    intro htrue
    have h := List.all_eq_true.mp htrue m hm
    simp [hid] at h
  refine ⟨?_, ?_, ?_, ?_, ?_⟩
  · unfold postCommentary
    simp [hseq, hev, hac, htm, hmsg, hall]
  · intro h
    simp [insertedCommentaryRow, h, jsOrNullInt]
  · intro h
    simp [insertedCommentaryRow, h, jsOrNullStr]
  · intro h
    simp [insertedCommentaryRow, h, jsOrNullStr]
  · intro h
    simp [insertedCommentaryRow, h]

/-- A commentary body with all five required fields truthy and nothing
optional supplied. -/
def bodyFullCommentary : CommentaryBody :=
  { sequence := some 7
    eventType := some "goal"
    actor := some "Alice"
    team := some "Reds"
    message := some "Goal!" }

/-- C3 witness: posting a fully-required commentary body against the
existing match 1 returns 201 with the inserted row, whose minute, period
and metadata are NULL and whose tags are the empty array. -/
theorem postCommentary_inserts_with_defaults_witness :
    truthyInt bodyFullCommentary.sequence = true ∧
    (∃ m ∈ dbOneMatch.matchesTable, m.id = (1 : Int)) ∧
    (postCommentary dbOneMatch 1 bodyFullCommentary).1 =
      HResp.ok 201 (insertedCommentaryRow dbOneMatch 1 bodyFullCommentary) ∧
    (insertedCommentaryRow dbOneMatch 1 bodyFullCommentary).minute = none ∧
    (insertedCommentaryRow dbOneMatch 1 bodyFullCommentary).period = none ∧
    (insertedCommentaryRow dbOneMatch 1 bodyFullCommentary).metadata = none ∧
    (insertedCommentaryRow dbOneMatch 1 bodyFullCommentary).tags = [] := by
  have h := postCommentary_inserts_with_defaults dbOneMatch 1 bodyFullCommentary
    (by decide) (by decide) (by decide) (by decide) (by decide) (by decide)
  exact ⟨by decide, by decide, by rw [h.1], h.2.1 rfl, h.2.2.1 rfl,
    h.2.2.2.1 rfl, h.2.2.2.2 rfl⟩

/-- C6: listing a match's commentary always succeeds with 200 and a list
that holds exactly the commentary rows carrying the parsed matchId (a
permutation of the table's rows with that matchId, each element carrying
it), ordered by creation timestamp descending (newest first); under the
foreign-key invariant of reachable states, a matchId matching no existing
match yields the empty list, not an error. -/
theorem getMatchCommentary_desc_order (db : DB) (mid : Int)
    (hfk : ∀ c ∈ db.commentaryTable, ∃ m ∈ db.matchesTable, m.id = c.matchId) :
    ∃ l, getMatchCommentary db mid = HResp.ok 200 l ∧
      l.Perm (db.commentaryTable.filter (fun c => c.matchId == mid)) ∧
      List.Sorted laterFirst l ∧
      (∀ c ∈ l, c.matchId = mid) ∧
      ((∀ m ∈ db.matchesTable, m.id ≠ mid) → l = []) := by
  refine ⟨_, rfl, List.perm_insertionSort _ _, List.sorted_insertionSort _ _, ?_, ?_⟩
  · intro c hc
    have hc2 : c ∈ db.commentaryTable.filter (fun c2 => c2.matchId == mid) :=
      (List.perm_insertionSort laterFirst _).subset hc
    have h := (List.mem_filter.mp hc2).2
    simpa using h
  · intro hnone
    have hfil : db.commentaryTable.filter (fun c => c.matchId == mid) = [] := by
      rw [List.filter_eq_nil_iff]
      intro c hc hbe
      obtain ⟨m, hm, hid⟩ := hfk c hc
      have hceq : c.matchId = mid := by simpa using hbe
      exact hnone m hm (by rw [hid, hceq])
    rw [hfil]
    rfl

/-- C6 witness: in the three-comment fixture the foreign-key invariant
holds, and listing commentary for the unknown matchId 99 satisfies the
theorem, in particular returning the empty list. -/
theorem getMatchCommentary_desc_order_witness :
    (∀ c ∈ dbThreeComments.commentaryTable,
      ∃ m ∈ dbThreeComments.matchesTable, m.id = c.matchId) ∧
    (∃ l, getMatchCommentary dbThreeComments 99 = HResp.ok 200 l ∧
      l.Perm (dbThreeComments.commentaryTable.filter (fun c => c.matchId == (99 : Int))) ∧
      List.Sorted laterFirst l ∧
      (∀ c ∈ l, c.matchId = 99) ∧
      ((∀ m ∈ dbThreeComments.matchesTable, m.id ≠ 99) → l = [])) :=
  ⟨by decide, getMatchCommentary_desc_order dbThreeComments 99 (by decide)⟩

/-- Concrete ordering check: the rows created in the order id 1, id 2,
id 3 come back newest first, id 3, id 2, id 1. -/
theorem getMatchCommentary_newest_first_example :
    getMatchCommentary dbThreeComments 1 =
      HResp.ok 200 [commentFixture 3 3, commentFixture 2 2, commentFixture 1 1] := by
  decide

/-- C7 counterexample: a `PUT /matches/:id` whose body defines no updatable
field, against a database where zero rows match the id, is answered 400
(`No values to set`), not 404 — refuting the claimed equivalence between
404 and zero matching rows. -/
theorem putMatch_empty_body_no_404 :
    dbEmpty.matchesTable.filter (fun m => m.id == (1 : Int)) = [] ∧
    (putMatch dbEmpty 1 emptyMatchUpdate).1 = HResp.err 400 "No values to set" ∧
    (putMatch dbEmpty 1 emptyMatchUpdate).1 ≠ HResp.err 404 "Match not found" := by
  refine ⟨rfl, rfl, ?_⟩
  decide

/-- C7 (amended): provided the PUT bodies define at least one updatable
field (otherwise the query layer's empty-set rejection answers 400 first),
`GET /matches/:id`, `PUT /matches/:id` and `PUT /commentary/:id` return
404 with the entity's not-found error exactly when zero rows match the
parsed id; and whenever a row matches, each returns 200 with the (updated)
row. `GET /matches/:id` needs no body proviso. -/
theorem notFound_iff_no_matching_row (db : DB) (gid uid cid : Int)
    (b : MatchUpdateBody) (c : CommentaryUpdateBody)
    (hb : matchUpdateEmpty b = false) (hc : commentaryUpdateEmpty c = false) :
    (getMatchById db gid = HResp.err 404 "Match not found" ↔
      db.matchesTable.filter (fun m => m.id == gid) = []) ∧
    (∀ m r, db.matchesTable.filter (fun m2 => m2.id == gid) = m :: r →
      getMatchById db gid = HResp.ok 200 m) ∧
    ((putMatch db uid b).1 = HResp.err 404 "Match not found" ↔
      db.matchesTable.filter (fun m => m.id == uid) = []) ∧
    (∀ m r, db.matchesTable.filter (fun m2 => m2.id == uid) = m :: r →
      (putMatch db uid b).1 = HResp.ok 200 (applyMatchUpdate b m)) ∧
    ((putCommentary db cid c).1 = HResp.err 404 "Commentary not found" ↔
      db.commentaryTable.filter (fun x => x.id == cid) = []) ∧
    (∀ x r, db.commentaryTable.filter (fun y => y.id == cid) = x :: r →
      (putCommentary db cid c).1 = HResp.ok 200 (applyCommentaryUpdate c x)) := by
  have hnb : ¬(matchUpdateEmpty b = true) := by simp [hb]
  have hnc : ¬(commentaryUpdateEmpty c = true) := by simp [hc]
  refine ⟨?_, ?_, ?_, ?_, ?_, ?_⟩
  · unfold getMatchById
    cases hf : db.matchesTable.filter (fun m => m.id == gid) with
    | nil => simp
    | cons m r => simp
  · intro m r hf
    unfold getMatchById
    rw [hf]
  · unfold putMatch
    rw [if_neg hnb]
    cases hf : db.matchesTable.filter (fun m => m.id == uid) with
    | nil => simp [hf]
    | cons m r => simp [hf]
  · intro m r hf
    unfold putMatch
    rw [if_neg hnb, hf]
    rfl
  · unfold putCommentary
    rw [if_neg hnc]
    cases hf : db.commentaryTable.filter (fun x => x.id == cid) with
    | nil => simp [hf]
    | cons x r => simp [hf]
  · intro x r hf
    unfold putCommentary
    rw [if_neg hnc, hf]
    rfl

/-- A `PUT /commentary/:id` body defining only the message field. -/
def bodyMessageOnly : CommentaryUpdateBody := { message := some "edited" }

/-- C7 witness: against the one-match fixture, id 5 matches zero rows and
gets the 404, while id 1 matches the fixture row and gets 200 with it. -/
theorem notFound_iff_no_matching_row_witness :
    matchUpdateEmpty bodyLiveOnly = false ∧
    commentaryUpdateEmpty bodyMessageOnly = false ∧
    getMatchById dbOneMatch 5 = HResp.err 404 "Match not found" ∧
    getMatchById dbOneMatch 1 = HResp.ok 200 matchFixture := by
  have h5 := notFound_iff_no_matching_row dbOneMatch 5 5 5 bodyLiveOnly bodyMessageOnly
    (by decide) (by decide)
  have h1 := notFound_iff_no_matching_row dbOneMatch 1 1 1 bodyLiveOnly bodyMessageOnly
    (by decide) (by decide)
  exact ⟨by decide, by decide, h5.1.mpr (by decide), h1.2.1 matchFixture [] (by decide)⟩

end SportsApi
